import Mathlib

/-!
Verification of the registration flow of `src/frontend/src/pages/register/Register.jsx`
(the `Register` React component of the sehat-saathi app).

The component's state is the six `useState` hooks; the DOM input for the
email is wired by `onChange` to `setEmail` and read back through
`emailRef`, so its value coincides with the `email` state.  The
validation predicates live in `src/frontend/src/utils/regex-util.js` and
the route table in `src/frontend/src/routes.js`, neither of which is in
the repository snapshot; they are modelled from the spec below, and the
theorems about the flow quantify over an arbitrary `RegexUtil` wherever
the claim does not depend on the concrete predicates.
-/

namespace Register

/-- The `ERROR_MESSAGES` mapping of `Register.jsx`, lines 18-25. -/
def EXISTING_CREDENTIALS_ERROR : String :=
  "Email, phone number, or username already taken."

def INVALID_EMAIL_ERROR : String := "Invalid email format."

def INVALID_PHONE_ERROR : String := "Invalid phone format."

def INVALID_USERNAME_ERROR : String :=
  "Invalid username. Username cannot contain spaces and minimum length must be at least "

def INVALID_PASSWORD_ERROR : String :=
  "Invalid password. The length must be at least "

def GENERIC_SERVER_ERROR : String :=
  "There was a problem registering your account. Please try again later."

/-- The interface of the `RegexUtil` module imported by `Register.jsx`
(its source `src/frontend/src/utils/regex-util.js` is not in the snapshot):
four validation predicates and the two minimum-length constants. -/
structure RegexUtil where
  isValidEmailFormat : String → Bool
  isValidPhoneFormat : String → Bool
  isValidUsernameFormat : String → Bool
  isValidPasswordFormat : String → Bool
  MIN_USERNAME_LENGTH : Nat
  MIN_PASSWORD_LENGTH : Nat

/-- The component state: the six `useState` hooks of `Register.jsx`,
lines 31-43.  The DOM value behind `emailRef` is identified with the
`email` state, to which it is bound by the input's `onChange` handler. -/
structure RegisterState where
  email : String
  phone : String
  password : String
  username : String
  isValidCredentials : Bool
  clickedGetStarted : Bool
  errorMessage : String
deriving DecidableEq, Repr

/-- The initial state: every `useState` initializer of lines 31-43.
`errorMessage` is pre-initialized to the existing-credentials text. -/
def initState : RegisterState :=
  { email := ""
    phone := ""
    password := ""
    username := ""
    isValidCredentials := true
    clickedGetStarted := false
    errorMessage := EXISTING_CREDENTIALS_ERROR }

/-- `setEmail` from the `useState` hook: updates the `email` field only. -/
def setEmail (v : String) (st : RegisterState) : RegisterState :=
  { st with email := v }

/-- `setPhone` from the `useState` hook: updates the `phone` field only. -/
def setPhone (v : String) (st : RegisterState) : RegisterState :=
  { st with phone := v }

/-- `setUsername` from the `useState` hook: updates the `username` field only. -/
def setUsername (v : String) (st : RegisterState) : RegisterState :=
  { st with username := v }

/-- `setPassword` from the `useState` hook: updates the `password` field only. -/
def setPassword (v : String) (st : RegisterState) : RegisterState :=
  { st with password := v }

/-- `isEmailBoxFilled` (lines 49-51): the DOM email value is non-empty;
the DOM value is the `email` state (bound by `onChange`). -/
def isEmailBoxFilled (st : RegisterState) : Bool :=
  st.email.length > 0

/-- A call to the injected Navigator: `navigate(ROUTES.LOGIN, { state:
... })` at lines 119-123 carries the destination and the
`justRegistered` flag. -/
structure NavEvent where
  dest : String
  justRegistered : Bool
deriving DecidableEq, Repr

/-- Modelled from the spec: `ROUTES.LOGIN`, the login destination of the
missing `src/frontend/src/routes.js` route table. -/
def ROUTES_LOGIN : String := "/login"

/-- The outcome the server reports for the POST to `auth/register`:
success, a failure response carrying a status code (`err.response`
present), or a transport-level failure with no response. -/
inductive ServerResponse where
  | success
  | failureStatus (code : Nat)
  | networkError
deriving DecidableEq, Repr

/-- The continuation of `performRegister` (lines 108-132) once the
awaited POST has resolved with `resp`: on success, navigate to the login
route with `justRegistered: true`; on a 403 response set the
existing-credentials message; on any other failure set the generic
message; both failure branches clear `isValidCredentials`. -/
def performRegister (st : RegisterState) (resp : ServerResponse) :
    RegisterState × List NavEvent :=
  match resp with
  | .success =>
      (st, [{ dest := ROUTES_LOGIN, justRegistered := true }])
  | .failureStatus code =>
      if code = 403 then
        ({ st with errorMessage := EXISTING_CREDENTIALS_ERROR,
                   isValidCredentials := false }, [])
      else
        ({ st with errorMessage := GENERIC_SERVER_ERROR,
                   isValidCredentials := false }, [])
  | .networkError =>
      ({ st with errorMessage := GENERIC_SERVER_ERROR,
                 isValidCredentials := false }, [])

/-- The synchronous part of `handleRegister` (lines 68-105): reset
`isValidCredentials`, run the four validation rules in order, stop at
the first failure with its message; the returned Bool records whether
the POST of `performRegister` was issued (all rules passed).
`e.preventDefault()` only suppresses the default DOM event and has no
state effect. -/
def handleRegisterStart (ru : RegexUtil) (st : RegisterState) :
    RegisterState × Bool :=
  let st := { st with isValidCredentials := true }
  if !(ru.isValidEmailFormat st.email) then
    ({ st with isValidCredentials := false,
               errorMessage := INVALID_EMAIL_ERROR }, false)
  else if !(ru.isValidPhoneFormat st.phone) then
    ({ st with isValidCredentials := false,
               errorMessage := INVALID_PHONE_ERROR }, false)
  else if !(ru.isValidUsernameFormat st.username) then
    ({ st with isValidCredentials := false,
               errorMessage :=
                 INVALID_USERNAME_ERROR ++ toString ru.MIN_USERNAME_LENGTH ++ "." }, false)
  else if !(ru.isValidPasswordFormat st.password) then
    ({ st with isValidCredentials := false,
               errorMessage :=
                 INVALID_PASSWORD_ERROR ++ toString ru.MIN_PASSWORD_LENGTH ++ "." }, false)
  else
    (st, true)

/-- `handleRegister` (lines 68-105) followed by the resolution of the
POST it issues: when validation passes the flow suspends in
`performRegister` and resumes with the server's response `resp`;
otherwise no request is made and `resp` is irrelevant. -/
def handleRegister (ru : RegexUtil) (st : RegisterState)
    (resp : ServerResponse) : RegisterState × List NavEvent :=
  let r := handleRegisterStart ru st
  if r.2 then performRegister r.1 resp else (r.1, [])

/-- `handleGetStarted` (lines 54-65): if the detail fields are already
shown, delegate to `handleRegister`; otherwise reveal them when the
email box is filled, and do nothing when it is empty. -/
def handleGetStarted (ru : RegexUtil) (st : RegisterState)
    (resp : ServerResponse) : RegisterState × List NavEvent :=
  if st.clickedGetStarted then
    handleRegister ru st resp
  else if isEmailBoxFilled st then
    ({ st with clickedGetStarted := true }, [])
  else
    (st, [])

/-! ### A spec-modelled instance of the missing `regex-util.js` -/

/-- Splits a character list at the first occurrence of `c`, returning
the parts before and after it, or `none` when `c` does not occur. -/
def splitAtChar (c : Char) : List Char → Option (List Char × List Char)
  | [] => none
  | x :: xs =>
      if x = c then some ([], xs)
      else
        match splitAtChar c xs with
        | none => none
        | some (a, b) => some (x :: a, b)

/-- Modelled from the spec: `RegexUtil.isValidEmailFormat` of the
missing `regex-util.js`.  The spec asks for a `local@domain.tld` shape:
presence of an `@` with a non-empty local part, and a domain carrying a
dot-separated suffix with non-empty parts. -/
def specIsValidEmailFormat (s : String) : Bool :=
  match splitAtChar '@' s.toList with
  | none => false
  | some (loc, dom) =>
      match splitAtChar '.' dom with
      | none => false
      | some (d1, d2) => !loc.isEmpty && !d1.isEmpty && !d2.isEmpty

/-- Modelled from the spec: `RegexUtil.isValidPhoneFormat` of the
missing `regex-util.js`.  Accepts digits with optional separators,
parentheses, spaces, or a leading country code, and requires ten (or
eleven, with country code) digits, so that the common US formats the
spec lists are accepted. -/
def specIsValidPhoneFormat (s : String) : Bool :=
  let cs := s.toList
  cs.all (fun c => c.isDigit || c = '-' || c = '(' || c = ')' || c = ' ' || c = '+') &&
    (let d := (cs.filter Char.isDigit).length
     d = 10 || d = 11)

/-- Modelled from the spec: `RegexUtil.isValidUsernameFormat` of the
missing `regex-util.js`: non-empty, no whitespace characters, and
length at least the configured minimum. -/
def specIsValidUsernameFormat (minLen : Nat) (s : String) : Bool :=
  s.length > 0 && s.toList.all (fun c => !c.isWhitespace) && minLen ≤ s.length

/-- Modelled from the spec: `RegexUtil.isValidPasswordFormat` of the
missing `regex-util.js`: length at least the configured minimum, with
no other constraint. -/
def specIsValidPasswordFormat (minLen : Nat) (s : String) : Bool :=
  minLen ≤ s.length

/-- Modelled from the spec: the `RegexUtil` module assembled from the
four spec-modelled predicates, with the two minimum lengths taken as
injected configuration values as the spec directs. -/
def specRegexUtil (minU minP : Nat) : RegexUtil :=
  { isValidEmailFormat := specIsValidEmailFormat
    isValidPhoneFormat := specIsValidPhoneFormat
    isValidUsernameFormat := specIsValidUsernameFormat minU
    isValidPasswordFormat := specIsValidPasswordFormat minP
    MIN_USERNAME_LENGTH := minU
    MIN_PASSWORD_LENGTH := minP }

/-! ### Event-driven operational model

The page is single-threaded and event-driven: typing into an input
fires the corresponding setter, clicking Get Started fires
`handleGetStarted`, clicking Sign Up fires `handleRegister`, and each
POST issued by `performRegister` later resolves with a server response.
`pending` counts the POSTs issued and not yet resolved; nothing in the
source disables the submission triggers while a request is in flight. -/

/-- A discrete input event of the page, or the resolution of one
outstanding POST request. -/
inductive Event where
  | typeEmail (v : String)
  | typePhone (v : String)
  | typeUsername (v : String)
  | typePassword (v : String)
  | clickGetStarted
  | clickSignUp
  | serverRespond (resp : ServerResponse)
deriving DecidableEq, Repr

/-- The whole page together with its environment: the component state,
the number of outstanding POST requests, and the navigation calls made
so far. -/
structure SystemState where
  reg : RegisterState
  pending : Nat
  navCalls : List NavEvent
deriving DecidableEq, Repr

/-- The initial system state: fresh component, no request in flight,
no navigation performed. -/
def initSystem : SystemState :=
  { reg := initState, pending := 0, navCalls := [] }

/-- A submission trigger: the synchronous part of `handleRegister`; when
validation passes, one more POST becomes outstanding. -/
def stepSubmit (ru : RegexUtil) (s : SystemState) : SystemState :=
  let r := handleRegisterStart ru s.reg
  { s with reg := r.1, pending := if r.2 then s.pending + 1 else s.pending }

/-- One step of the page: the handler the event is wired to in the
markup (lines 158-216).  `serverRespond` resolves one outstanding POST
with the continuation of `performRegister` and is only possible when a
request is in flight. -/
def step (ru : RegexUtil) (s : SystemState) : Event → Option SystemState
  | .typeEmail v => some { s with reg := setEmail v s.reg }
  | .typePhone v => some { s with reg := setPhone v s.reg }
  | .typeUsername v => some { s with reg := setUsername v s.reg }
  | .typePassword v => some { s with reg := setPassword v s.reg }
  | .clickGetStarted =>
      if s.reg.clickedGetStarted then
        some (stepSubmit ru s)
      else if isEmailBoxFilled s.reg then
        some { s with reg := { s.reg with clickedGetStarted := true } }
      else
        some s
  | .clickSignUp => some (stepSubmit ru s)
  | .serverRespond resp =>
      if s.pending = 0 then none
      else
        let r := performRegister s.reg resp
        some { s with reg := r.1, pending := s.pending - 1,
                      navCalls := s.navCalls ++ r.2 }

/-- Runs a list of events from a system state. -/
def runFrom (ru : RegexUtil) (s : SystemState) : List Event → Option SystemState
  | [] => some s
  | ev :: evs =>
      match step ru s ev with
      | none => none
      | some s1 => runFrom ru s1 evs

/-- Runs a list of events from the initial system state; `none` when the
trace is impossible (a response arrives with no request outstanding). -/
def run (ru : RegexUtil) (evs : List Event) : Option SystemState :=
  runFrom ru initSystem evs

/-! ### Derived notions used to state the claims -/

/-- The five possible outcomes of one `handleRegister` attempt. -/
inductive SubmitOutcome where
  | proceedToSubmit
  | invalidEmail
  | invalidPhone
  | invalidUsername
  | invalidPassword
deriving DecidableEq, Repr

/-- The outcome of one submit attempt, following the validation cascade
of `handleRegister` (lines 76-104) rule by rule. -/
def submitOutcome (ru : RegexUtil) (st : RegisterState) : SubmitOutcome :=
  if !(ru.isValidEmailFormat st.email) then .invalidEmail
  else if !(ru.isValidPhoneFormat st.phone) then .invalidPhone
  else if !(ru.isValidUsernameFormat st.username) then .invalidUsername
  else if !(ru.isValidPasswordFormat st.password) then .invalidPassword
  else .proceedToSubmit

/-- The state and issued-request flag `handleRegisterStart` produces for
each outcome. -/
def outcomeResult (ru : RegexUtil) (st : RegisterState) :
    SubmitOutcome → RegisterState × Bool
  | .invalidEmail =>
      ({ st with isValidCredentials := false,
                 errorMessage := INVALID_EMAIL_ERROR }, false)
  | .invalidPhone =>
      ({ st with isValidCredentials := false,
                 errorMessage := INVALID_PHONE_ERROR }, false)
  | .invalidUsername =>
      ({ st with isValidCredentials := false,
                 errorMessage :=
                   INVALID_USERNAME_ERROR ++ toString ru.MIN_USERNAME_LENGTH ++ "." }, false)
  | .invalidPassword =>
      ({ st with isValidCredentials := false,
                 errorMessage :=
                   INVALID_PASSWORD_ERROR ++ toString ru.MIN_PASSWORD_LENGTH ++ "." }, false)
  | .proceedToSubmit =>
      ({ st with isValidCredentials := true }, true)

/-- The error paragraph (lines 218-224) has `visibility: hidden`
exactly when `isValidCredentials` holds, so the error message is
visible iff the flag is false. -/
def errorVisible (st : RegisterState) : Bool :=
  !st.isValidCredentials

/-- The event `ev`, fired in system state `s`, is a submit attempt that
fails: a submission trigger whose validation cascade rejects, or the
resolution of an outstanding request with a non-success response. -/
def submitAttemptFailed (ru : RegexUtil) (s : SystemState) (ev : Event) : Prop :=
  ((ev = .clickSignUp ∨ (ev = .clickGetStarted ∧ s.reg.clickedGetStarted = true))
      ∧ (handleRegisterStart ru s.reg).2 = false)
    ∨ (∃ resp, ev = .serverRespond resp ∧ resp ≠ .success)

/-- The concrete all-valid field values of the spec's test properties,
with the detail fields already revealed. -/
def validState : RegisterState :=
  { initState with
      email := "user@example.com"
      phone := "555-123-4567"
      username := "validUser"
      password := "password1"
      clickedGetStarted := true }

/-- `validState` with the email replaced by one failing the format
rule, used as a concrete rejected submission. -/
def badEmailState : RegisterState :=
  { validState with email := "userexample.com" }

/-! ### Theorems -/

/-- Claim C1: for every credentials tuple, `submit()` evaluates the
validation rules in the fixed order email, phone, username, password
and stops at the first failing rule, rejecting with that rule's message
and making no navigation; in particular, when the email rule fails the
outcome is the invalid-email rejection whatever the other three fields
and the server response are, and later rules are not evaluated (the
result does not depend on them). -/
theorem C1_validation_order (ru : RegexUtil) (st : RegisterState)
    (resp : ServerResponse) :
    (ru.isValidEmailFormat st.email = false →
      handleRegister ru st resp =
        ({ st with isValidCredentials := false,
                   errorMessage := INVALID_EMAIL_ERROR }, []))
    ∧ (ru.isValidEmailFormat st.email = true →
       ru.isValidPhoneFormat st.phone = false →
      handleRegister ru st resp =
        ({ st with isValidCredentials := false,
                   errorMessage := INVALID_PHONE_ERROR }, []))
    ∧ (ru.isValidEmailFormat st.email = true →
       ru.isValidPhoneFormat st.phone = true →
       ru.isValidUsernameFormat st.username = false →
      handleRegister ru st resp =
        ({ st with isValidCredentials := false,
                   errorMessage :=
                     INVALID_USERNAME_ERROR ++ toString ru.MIN_USERNAME_LENGTH ++ "." }, []))
    ∧ (ru.isValidEmailFormat st.email = true →
       ru.isValidPhoneFormat st.phone = true →
       ru.isValidUsernameFormat st.username = true →
       ru.isValidPasswordFormat st.password = false →
      handleRegister ru st resp =
        ({ st with isValidCredentials := false,
                   errorMessage :=
                     INVALID_PASSWORD_ERROR ++ toString ru.MIN_PASSWORD_LENGTH ++ "." }, [])) := by
  refine ⟨fun h1 => ?_, fun h1 h2 => ?_, fun h1 h2 h3 => ?_, fun h1 h2 h3 h4 => ?_⟩
  · simp [handleRegister, handleRegisterStart, h1]
  · simp [handleRegister, handleRegisterStart, h1, h2]
  · simp [handleRegister, handleRegisterStart, h1, h2, h3]
  · simp [handleRegister, handleRegisterStart, h1, h2, h3, h4]

/-- Witness for C1 at the spec's concrete inputs: with an invalid email
and every other field valid, the submit attempt is rejected with the
invalid-email message and no navigation. -/
theorem C1_validation_order_witness :
    handleRegister (specRegexUtil 6 6) badEmailState .success =
      ({ badEmailState with isValidCredentials := false,
                            errorMessage := INVALID_EMAIL_ERROR }, []) :=
  (C1_validation_order (specRegexUtil 6 6) badEmailState .success).1 (by decide)

/-- Claim C2: if all four validation rules pass on the current field
values and the server reports success, `submit()` results in exactly
one navigation call, to the login destination with the
`justRegistered` flag set. -/
theorem C2_success_navigates (ru : RegexUtil) (st : RegisterState)
    (he : ru.isValidEmailFormat st.email = true)
    (hp : ru.isValidPhoneFormat st.phone = true)
    (hu : ru.isValidUsernameFormat st.username = true)
    (hw : ru.isValidPasswordFormat st.password = true) :
    handleRegister ru st .success =
      ({ st with isValidCredentials := true },
       [{ dest := ROUTES_LOGIN, justRegistered := true }]) := by
  simp [handleRegister, handleRegisterStart, performRegister, he, hp, hu, hw]

/-- Witness for C2 at the spec's concrete inputs. -/
theorem C2_success_navigates_witness :
    handleRegister (specRegexUtil 6 6) validState .success =
      ({ validState with isValidCredentials := true },
       [{ dest := ROUTES_LOGIN, justRegistered := true }]) :=
  C2_success_navigates (specRegexUtil 6 6) validState
    (by decide) (by decide) (by decide) (by decide)

/-- Claim C3: if all validation rules pass and the server fails with
status code 403, the flow is rejected with the existing-credentials
message and no navigation occurs. -/
theorem C3_conflict_rejected (ru : RegexUtil) (st : RegisterState)
    (he : ru.isValidEmailFormat st.email = true)
    (hp : ru.isValidPhoneFormat st.phone = true)
    (hu : ru.isValidUsernameFormat st.username = true)
    (hw : ru.isValidPasswordFormat st.password = true) :
    handleRegister ru st (.failureStatus 403) =
      ({ st with isValidCredentials := false,
                 errorMessage := EXISTING_CREDENTIALS_ERROR }, []) := by
  simp [handleRegister, handleRegisterStart, performRegister, he, hp, hu, hw]

/-- Witness for C3 at the spec's concrete inputs. -/
theorem C3_conflict_rejected_witness :
    handleRegister (specRegexUtil 6 6) validState (.failureStatus 403) =
      ({ validState with isValidCredentials := false,
                         errorMessage := EXISTING_CREDENTIALS_ERROR }, []) :=
  C3_conflict_rejected (specRegexUtil 6 6) validState
    (by decide) (by decide) (by decide) (by decide)

/-- Claim C4: if all validation rules pass and the server fails with
any outcome other than status 403 — another status code, or a
transport-level network failure carrying no status code — the flow is
rejected with the generic server-error message, with no navigation. -/
theorem C4_other_failures_generic (ru : RegexUtil) (st : RegisterState)
    (he : ru.isValidEmailFormat st.email = true)
    (hp : ru.isValidPhoneFormat st.phone = true)
    (hu : ru.isValidUsernameFormat st.username = true)
    (hw : ru.isValidPasswordFormat st.password = true) :
    (∀ code, code ≠ 403 →
      handleRegister ru st (.failureStatus code) =
        ({ st with isValidCredentials := false,
                   errorMessage := GENERIC_SERVER_ERROR }, []))
    ∧ handleRegister ru st .networkError =
        ({ st with isValidCredentials := false,
                   errorMessage := GENERIC_SERVER_ERROR }, []) := by
  constructor
  · intro code hc
    simp [handleRegister, handleRegisterStart, performRegister, he, hp, hu, hw, hc]
  · simp [handleRegister, handleRegisterStart, performRegister, he, hp, hu, hw]

/-- Witness for C4 at the spec's concrete inputs, with status 500 and
with a network failure. -/
theorem C4_other_failures_generic_witness :
    handleRegister (specRegexUtil 6 6) validState (.failureStatus 500) =
      ({ validState with isValidCredentials := false,
                         errorMessage := GENERIC_SERVER_ERROR }, []) ∧
    handleRegister (specRegexUtil 6 6) validState .networkError =
      ({ validState with isValidCredentials := false,
                         errorMessage := GENERIC_SERVER_ERROR }, []) :=
  ⟨(C4_other_failures_generic (specRegexUtil 6 6) validState
      (by decide) (by decide) (by decide) (by decide)).1 500 (by decide),
   (C4_other_failures_generic (specRegexUtil 6 6) validState
      (by decide) (by decide) (by decide) (by decide)).2⟩

/-- Claim C5 fails on the code: nothing disables the submission
triggers while a request is in flight, so after entering valid
credentials and clicking Sign Up twice before any server response, two
POST requests are outstanding at once.  This theorem evaluates the
model on that trace. -/
theorem C5_double_submission_possible :
    (run (specRegexUtil 6 6)
      [.typeEmail "user@example.com", .clickGetStarted,
       .typePhone "555-123-4567", .typeUsername "validUser",
       .typePassword "password1", .clickSignUp, .clickSignUp]).map
      (fun s => s.pending) = some 2 := by
  decide

/-- Claim C6: `advance()` transitions from collecting the email to
collecting the details exactly when the email field is non-empty; when
it is empty the call is a no-op; and when the details are already shown
it delegates to `submit()`. -/
theorem C6_advance (ru : RegexUtil) (st : RegisterState)
    (resp : ServerResponse) :
    (st.clickedGetStarted = false → st.email = "" →
      handleGetStarted ru st resp = (st, []))
    ∧ (st.clickedGetStarted = false → st.email ≠ "" →
      handleGetStarted ru st resp = ({ st with clickedGetStarted := true }, []))
    ∧ (st.clickedGetStarted = true →
      handleGetStarted ru st resp = handleRegister ru st resp) := by
  refine ⟨fun h1 h2 => ?_, fun h1 h2 => ?_, fun h1 => ?_⟩
  · simp [handleGetStarted, isEmailBoxFilled, h1, h2]
  · have hl : st.email.length ≠ 0 := fun hz => h2 (String.ext (List.length_eq_zero.mp hz))
    simp [handleGetStarted, isEmailBoxFilled, h1, Nat.pos_of_ne_zero hl]
  · simp [handleGetStarted, h1]

/-- Witness for C6: from the initial state (empty email, details
hidden) the call is a no-op, and once the email is typed it reveals the
details. -/
theorem C6_advance_witness :
    handleGetStarted (specRegexUtil 6 6) initState .success = (initState, []) ∧
    handleGetStarted (specRegexUtil 6 6) (setEmail "user@example.com" initState)
        .success =
      ({ setEmail "user@example.com" initState with clickedGetStarted := true }, []) :=
  ⟨(C6_advance (specRegexUtil 6 6) initState .success).1 (by decide) (by decide),
   (C6_advance (specRegexUtil 6 6) (setEmail "user@example.com" initState)
      .success).2.1 (by decide) (by decide)⟩

/-- Claim C7: validation in `submit()` is total and exclusive: every
credentials tuple yields exactly one outcome among proceed-to-submit
and the four rejections, and `handleRegisterStart` produces exactly the
state and issued-request flag of that outcome. -/
theorem C7_validation_total (ru : RegexUtil) (st : RegisterState) :
    (∃! o : SubmitOutcome, submitOutcome ru st = o)
    ∧ handleRegisterStart ru st = outcomeResult ru st (submitOutcome ru st) := by
  constructor
  · exact ⟨submitOutcome ru st, rfl, fun y hy => hy.symm⟩
  · cases hE : ru.isValidEmailFormat st.email <;>
      cases hP : ru.isValidPhoneFormat st.phone <;>
        cases hU : ru.isValidUsernameFormat st.username <;>
          cases hW : ru.isValidPasswordFormat st.password <;>
            simp [handleRegisterStart, submitOutcome, outcomeResult, hE, hP, hU, hW]

/-- Claim C8: each field setter updates only its own field: the other
three fields, the validity flag, the error message, and the
details-revealed flag are untouched; repeated calls with the same value
are idempotent; and the error flag is reset at the start of the next
submit call, whose result never depends on the incoming flag. -/
theorem C8_setters_pure (v : String) (st : RegisterState) (ru : RegexUtil)
    (b : Bool) :
    ((setEmail v st).phone = st.phone
      ∧ (setEmail v st).username = st.username
      ∧ (setEmail v st).password = st.password
      ∧ (setEmail v st).isValidCredentials = st.isValidCredentials
      ∧ (setEmail v st).errorMessage = st.errorMessage
      ∧ (setEmail v st).clickedGetStarted = st.clickedGetStarted
      ∧ setEmail v (setEmail v st) = setEmail v st)
    ∧ ((setPhone v st).email = st.email
      ∧ (setPhone v st).username = st.username
      ∧ (setPhone v st).password = st.password
      ∧ (setPhone v st).isValidCredentials = st.isValidCredentials
      ∧ (setPhone v st).errorMessage = st.errorMessage
      ∧ (setPhone v st).clickedGetStarted = st.clickedGetStarted
      ∧ setPhone v (setPhone v st) = setPhone v st)
    ∧ ((setUsername v st).email = st.email
      ∧ (setUsername v st).phone = st.phone
      ∧ (setUsername v st).password = st.password
      ∧ (setUsername v st).isValidCredentials = st.isValidCredentials
      ∧ (setUsername v st).errorMessage = st.errorMessage
      ∧ (setUsername v st).clickedGetStarted = st.clickedGetStarted
      ∧ setUsername v (setUsername v st) = setUsername v st)
    ∧ ((setPassword v st).email = st.email
      ∧ (setPassword v st).phone = st.phone
      ∧ (setPassword v st).username = st.username
      ∧ (setPassword v st).isValidCredentials = st.isValidCredentials
      ∧ (setPassword v st).errorMessage = st.errorMessage
      ∧ (setPassword v st).clickedGetStarted = st.clickedGetStarted
      ∧ setPassword v (setPassword v st) = setPassword v st)
    ∧ handleRegisterStart ru { st with isValidCredentials := b } =
        handleRegisterStart ru { st with isValidCredentials := true } :=
  ⟨⟨rfl, rfl, rfl, rfl, rfl, rfl, rfl⟩,
   ⟨rfl, rfl, rfl, rfl, rfl, rfl, rfl⟩,
   ⟨rfl, rfl, rfl, rfl, rfl, rfl, rfl⟩,
   ⟨rfl, rfl, rfl, rfl, rfl, rfl, rfl⟩,
   rfl⟩

/-- Claim C9: a submission that ends rejected — by a validation
failure, a 403 conflict, or any other server or network failure —
leaves the four credential fields and the details-revealed flag
unchanged and performs no navigation; only the validity flag and the
error message are modified. -/
theorem C9_rejected_frame (ru : RegexUtil) (st : RegisterState)
    (resp : ServerResponse)
    (h : (handleRegister ru st resp).1.isValidCredentials = false) :
    (handleRegister ru st resp).1.email = st.email
    ∧ (handleRegister ru st resp).1.phone = st.phone
    ∧ (handleRegister ru st resp).1.username = st.username
    ∧ (handleRegister ru st resp).1.password = st.password
    ∧ (handleRegister ru st resp).1.clickedGetStarted = st.clickedGetStarted
    ∧ (handleRegister ru st resp).2 = [] := by
  cases hE : ru.isValidEmailFormat st.email <;>
    cases hP : ru.isValidPhoneFormat st.phone <;>
      cases hU : ru.isValidUsernameFormat st.username <;>
        cases hW : ru.isValidPasswordFormat st.password <;>
          cases resp <;>
            simp_all [handleRegister, handleRegisterStart, performRegister,
              apply_ite]

/-- Witness for C9: a concrete rejected submission (invalid email,
server irrelevant) leaves the fields and the flag as they were. -/
theorem C9_rejected_frame_witness :
    (handleRegister (specRegexUtil 6 6) badEmailState .success).1.email =
        badEmailState.email
    ∧ (handleRegister (specRegexUtil 6 6) badEmailState .success).1.phone =
        badEmailState.phone
    ∧ (handleRegister (specRegexUtil 6 6) badEmailState .success).1.username =
        badEmailState.username
    ∧ (handleRegister (specRegexUtil 6 6) badEmailState .success).1.password =
        badEmailState.password
    ∧ (handleRegister (specRegexUtil 6 6) badEmailState
          .success).1.clickedGetStarted = badEmailState.clickedGetStarted
    ∧ (handleRegister (specRegexUtil 6 6) badEmailState .success).2 = [] :=
  C9_rejected_frame (specRegexUtil 6 6) badEmailState .success (by decide)

/-- When the validation cascade issues the request, the reset validity
flag survives to the returned state. -/
theorem handleRegisterStart_issued_valid (ru : RegexUtil) (st : RegisterState)
    (h : (handleRegisterStart ru st).2 = true) :
    (handleRegisterStart ru st).1.isValidCredentials = true := by
  cases hE : ru.isValidEmailFormat st.email <;>
    cases hP : ru.isValidPhoneFormat st.phone <;>
      cases hU : ru.isValidUsernameFormat st.username <;>
        cases hW : ru.isValidPasswordFormat st.password <;>
          simp_all [handleRegisterStart]

/-- Claim C10: in the initial state, before any submit attempt, no
error message is displayed — the validity flag starts true — even
though the error-message variable is pre-initialized to the
existing-credentials text; and in any step of the page the error can
become visible only through a failed submit attempt (a rejecting
validation cascade or a non-success server response). -/
theorem C10_error_hidden_initially (ru : RegexUtil) :
    (initState.isValidCredentials = true
      ∧ initState.errorMessage = EXISTING_CREDENTIALS_ERROR
      ∧ errorVisible initState = false)
    ∧ (∀ s ev s', step ru s ev = some s' →
        errorVisible s.reg = false → errorVisible s'.reg = true →
        submitAttemptFailed ru s ev) := by
  refine ⟨⟨rfl, rfl, rfl⟩, ?_⟩
  intro s ev s' hstep h0 h1
  simp [errorVisible] at h0 h1
  cases ev with
  | typeEmail v =>
      simp [step] at hstep
      rw [← hstep] at h1
      simp [setEmail] at h1
      simp [h0] at h1
  | typePhone v =>
      simp [step] at hstep
      rw [← hstep] at h1
      simp [setPhone] at h1
      simp [h0] at h1
  | typeUsername v =>
      simp [step] at hstep
      rw [← hstep] at h1
      simp [setUsername] at h1
      simp [h0] at h1
  | typePassword v =>
      simp [step] at hstep
      rw [← hstep] at h1
      simp [setPassword] at h1
      simp [h0] at h1
  | clickGetStarted =>
      by_cases hc : s.reg.clickedGetStarted
      · cases hi : (handleRegisterStart ru s.reg).2 with
        | true =>
            simp [step, hc, stepSubmit] at hstep
            rw [← hstep] at h1
            simp [handleRegisterStart_issued_valid ru s.reg hi] at h1
        | false =>
            exact Or.inl ⟨Or.inr ⟨rfl, by simpa using hc⟩, hi⟩
      · simp [step, hc] at hstep
        by_cases hf : isEmailBoxFilled s.reg
        · simp [hf] at hstep
          rw [← hstep] at h1
          simp [h0] at h1
        · simp [hf] at hstep
          rw [← hstep] at h1
          simp [h0] at h1
  | clickSignUp =>
      cases hi : (handleRegisterStart ru s.reg).2 with
      | true =>
          simp [step, stepSubmit] at hstep
          rw [← hstep] at h1
          simp [handleRegisterStart_issued_valid ru s.reg hi] at h1
      | false =>
          exact Or.inl ⟨Or.inl rfl, hi⟩
  | serverRespond resp =>
      by_cases hp : s.pending = 0
      · simp [step, hp] at hstep
      · cases resp with
        | success =>
            simp [step, hp, performRegister] at hstep
            rw [← hstep] at h1
            simp [h0] at h1
        | failureStatus code =>
            exact Or.inr ⟨.failureStatus code, rfl, by simp⟩
        | networkError =>
            exact Or.inr ⟨.networkError, rfl, by simp⟩

/-- Witness for C10: from the initial system state, clicking Sign Up
turns the error visible, and the theorem classifies that step as a
failed submit attempt. -/
theorem C10_error_hidden_initially_witness :
    submitAttemptFailed (specRegexUtil 6 6) initSystem .clickSignUp :=
  (C10_error_hidden_initially (specRegexUtil 6 6)).2 initSystem .clickSignUp
    { reg := { initState with isValidCredentials := false,
                              errorMessage := INVALID_EMAIL_ERROR },
      pending := 0, navCalls := [] }
    (by decide) (by decide) (by decide)

end Register
